import Mathlib

/-!
Verification of the ERM repository: the edge ANPR deduplication logic and
submission path (`src/server/edge_anpr/anpr_service.py`) and the RLS
migration script (`src/fix_rls.py`), as a shallow embedding in Lean 4.

Times and confidences are modelled as rationals (Python floats carry
real-valued clock readings; none of the verified logic depends on
rounding).  Python's truthiness of the stored timestamp
(`if self.last_plate_time and ...`) is modelled explicitly: `None` and
`0.0` are falsy.
-/

namespace ERM

/-- The mutable deduplication state of `ANPRService` (`__init__` sets
`self.last_plate = None` and `self.last_plate_time = None`). -/
structure ANPRState where
  last_plate : Option String
  last_plate_time : Option ℚ
deriving Repr, DecidableEq

/-- A freshly constructed `ANPRService`: no stored plate, no stored time. -/
def initState : ANPRState := { last_plate := none, last_plate_time := none }

/-- `ANPRService._should_send_plate`, with the current clock reading `now`
passed explicitly (the Python reads `time.time()` itself).  Returns the
boolean decision together with the state after the call.

Python source:
```
if self.last_plate == plate:
    # Same plate - only send if 5+ seconds passed
    if self.last_plate_time and (now - self.last_plate_time) < 5:
        return False
self.last_plate = plate
self.last_plate_time = now
return True
```
`self.last_plate_time and ...` short-circuits on a falsy timestamp, i.e.
on `None` or `0.0`; this is modelled by the `none` branch and the `t ≠ 0`
conjunct. -/
def shouldSendPlate (s : ANPRState) (plate : String) (now : ℚ) :
    Bool × ANPRState :=
  if s.last_plate = some plate then
    match s.last_plate_time with
    | none => (true, { last_plate := some plate, last_plate_time := some now })
    | some t =>
      if t ≠ 0 ∧ now - t < 5 then
        (false, s)
      else
        (true, { last_plate := some plate, last_plate_time := some now })
  else
    (true, { last_plate := some plate, last_plate_time := some now })

/-- Run the deduplicator over a list of observations `(plate, time)`,
threading the state; returns the list of decisions and the final state. -/
def runDedup : ANPRState → List (String × ℚ) → List Bool × ANPRState
  | s, [] => ([], s)
  | s, (p, t) :: rest =>
    ((shouldSendPlate s p t).1 :: (runDedup (shouldSendPlate s p t).2 rest).1,
     (runDedup (shouldSendPlate s p t).2 rest).2)

/-- Decisions produced by a freshly constructed deduplicator on a list of
observations. -/
def decisions (obs : List (String × ℚ)) : List Bool :=
  (runDedup initState obs).1

/-- States after each successive deduplicator call, starting from `s`. -/
def dedupStates : ANPRState → List (String × ℚ) → List ANPRState
  | _, [] => []
  | s, (p, t) :: rest =>
    (shouldSendPlate s p t).2 :: dedupStates (shouldSendPlate s p t).2 rest

/-- Ordering on optional stored timestamps: an absent timestamp precedes
everything, a present one never precedes an absent one. -/
def timeLE : Option ℚ → Option ℚ → Bool
  | none, _ => true
  | some _, none => false
  | some a, some b => decide (a ≤ b)

/-- A recognizer candidate as consumed by `_detect_with_openalpr`:
`top_candidate['plate'].upper()` and `top_candidate['confidence']`.  The
plate is taken already upper-cased. -/
structure Candidate where
  plate : String
  confidence : ℚ
deriving Repr, DecidableEq

/-- The JSON payload built by `_detect_with_openalpr` and posted by
`send_to_erm` (`plate_number`, `confidence`, `timestamp`); `camera_id`
and `image_url` are added from loop identity and are decision-irrelevant. -/
structure SubmissionPayload where
  plate_number : String
  confidence : ℚ
  timestamp : ℚ
deriving Repr, DecidableEq

/-- Processing of one recognizer candidate inside
`_detect_with_openalpr`: the payload is built and later posted by
`send_to_erm` exactly when `_should_send_plate(plate)` returns `True`.
`CONFIDENCE_THRESHOLD` is defined at module level but never consulted. -/
def processCandidate (s : ANPRState) (c : Candidate) (now : ℚ) :
    Option SubmissionPayload × ANPRState :=
  if (shouldSendPlate s c.plate now).1 then
    (some { plate_number := c.plate, confidence := c.confidence,
            timestamp := now },
     (shouldSendPlate s c.plate now).2)
  else
    (none, (shouldSendPlate s c.plate now).2)

/-- Outcome of the HTTP interaction in `send_to_erm`: a response with a
status code and the (possibly absent, here empty) `alerts` list of its
JSON body, or a raised `requests.exceptions.RequestException`, or any
other raised exception. -/
inductive HttpOutcome where
  | response (status : Nat) (alerts : List String)
  | requestException (msg : String)
  | otherException (msg : String)
deriving Repr, DecidableEq

/-- What `send_to_erm` does with an `HttpOutcome`.  Every constructor is a
normal return (the Python catches every exception and never re-raises):
a status of exactly 200 logs success plus the alert count, any other
status logs the error, and both exception kinds log and swallow. -/
inductive SendResult where
  | success (alerts : List String)
  | httpError (status : Nat)
  | networkError (msg : String)
  | sendError (msg : String)
deriving Repr, DecidableEq

/-- The response handling of `ANPRService.send_to_erm`:
`if response.status_code == 200:` logs success (and the alert count when
the body has alerts), `else` logs the status; `requests.exceptions.
RequestException` and bare `Exception` are caught and only printed. -/
def send_to_erm (r : HttpOutcome) : SendResult :=
  match r with
  | .response status alerts =>
    if status = 200 then .success alerts else .httpError status
  | .requestException m => .networkError m
  | .otherException m => .sendError m

/-- Whether `send_to_erm` treated the outcome as success (printed the
success line, surfacing alerts only as a log count). -/
def treatedAsSuccess : SendResult → Bool
  | .success _ => true
  | _ => false

/-- Stated from the claim text: status in the 2xx range. -/
def is2xx (status : Nat) : Bool :=
  200 ≤ status && status < 300

/-- An observable effect of the migration script `fix_rls.py`: a printed
line, the single RPC invocation `supabase.rpc('exec_sql', ...)
.execute()`, or a `sys.exit` with a status code. -/
inductive Eff where
  | printLine (s : String)
  | rpcExec (sql : String)
  | exitWith (code : Nat)
deriving Repr, DecidableEq

/-- The SQL blob `fix_rls_sql` of `fix_rls.py` (policy drops, RLS
enablement, policy creation, status row). -/
def fix_rls_sql : String :=
  "DROP/CREATE POLICY statements on public.clients and public.vehicles; " ++
  "ALTER TABLE ... ENABLE ROW LEVEL SECURITY; SELECT status row"

/-- The effect trace of `fix_rls.py` from its top-level code: the
`SUPABASE_KEY` guard, then the `try` block (announce, invoke the RPC,
print success and the response), with the `except` branch printing the
exception and calling `sys.exit(1)`.  `supabaseKey` is the environment
variable, `rpc` the result of the RPC invocation (`Except.error` when the
client raises). -/
def fix_rls_script (supabaseKey : Option String)
    (rpc : Except String String) : List Eff :=
  match supabaseKey with
  | none =>
    [Eff.printLine "ERROR: SUPABASE_KEY environment variable not set",
     Eff.printLine "Please set it with your Supabase API key",
     Eff.exitWith 1]
  | some _ =>
    Eff.printLine "Applying RLS fix policies..." ::
    Eff.rpcExec fix_rls_sql ::
    (match rpc with
     | Except.ok resp =>
       [Eff.printLine "✅ RLS policies fixed successfully!",
        Eff.printLine resp]
     | Except.error e =>
       [Eff.printLine ("❌ Error: " ++ e), Eff.exitWith 1])

/-! ### Helper lemmas about single deduplicator steps -/

/-- On a fresh state every plate is accepted and the state is overwritten. -/
lemma shouldSendPlate_init (p : String) (t : ℚ) :
    shouldSendPlate initState p t =
      (true, { last_plate := some p, last_plate_time := some t }) := by
  simp [shouldSendPlate, initState]

/-- A plate different from the stored one is always accepted. -/
lemma shouldSendPlate_diff (s : ANPRState) (p : String) (t : ℚ)
    (h : s.last_plate ≠ some p) :
    shouldSendPlate s p t =
      (true, { last_plate := some p, last_plate_time := some t }) := by
  simp [shouldSendPlate, h]

/-- The stored plate resubmitted after the cool-down has elapsed is
accepted. -/
lemma shouldSendPlate_cooled (p : String) (t now : ℚ) (h : ¬ now - t < 5) :
    shouldSendPlate { last_plate := some p, last_plate_time := some t } p now =
      (true, { last_plate := some p, last_plate_time := some now }) := by
  simp [shouldSendPlate, h]

/-- Every deduplicator call either rejects and leaves the state alone, or
accepts and overwrites the state with the incoming plate and time. -/
lemma shouldSendPlate_cases (s : ANPRState) (p : String) (now : ℚ) :
    shouldSendPlate s p now = (false, s) ∨
    shouldSendPlate s p now =
      (true, { last_plate := some p, last_plate_time := some now }) := by
  rcases s with ⟨lp, lt⟩
  by_cases hp : lp = some p
  · rcases lt with _ | t0
    · right; simp [shouldSendPlate, hp]
    · by_cases hc : t0 ≠ 0 ∧ now - t0 < 5
      · left; simp [shouldSendPlate, hp, hc]
      · right; simp [shouldSendPlate, hp, hc]
  · right; simp [shouldSendPlate, hp]

lemma timeLE_refl (a : Option ℚ) : timeLE a a = true := by
  rcases a with _ | x <;> simp [timeLE]

lemma timeLE_trans_someR {a : Option ℚ} {t u : ℚ}
    (h1 : timeLE a (some t) = true) (h2 : t ≤ u) :
    timeLE a (some u) = true := by
  rcases a with _ | x
  · simp [timeLE]
  · simp only [timeLE, decide_eq_true_eq] at h1 ⊢
    linarith

/-- One deduplicator call at a time `now` at or after the stored
timestamp never moves the stored timestamp backwards, and leaves it at or
before `now`. -/
lemma shouldSendPlate_time_step (s : ANPRState) (p : String) (now : ℚ)
    (h : timeLE s.last_plate_time (some now) = true) :
    timeLE s.last_plate_time (shouldSendPlate s p now).2.last_plate_time
        = true ∧
    timeLE (shouldSendPlate s p now).2.last_plate_time (some now) = true := by
  rcases shouldSendPlate_cases s p now with hc | hc <;> rw [hc]
  · exact ⟨timeLE_refl _, h⟩
  · exact ⟨h, timeLE_refl _⟩

/-- The chain invariant behind the monotonicity of the stored timestamp:
from any state whose stored timestamp is at or before the first incoming
time, a non-decreasing observation sequence produces a non-decreasing
sequence of stored timestamps. -/
lemma dedupStates_chain (obs : List (String × ℚ)) : ∀ s : ANPRState,
    List.Chain' (fun a b => a.2 ≤ b.2) obs →
    (∀ q ∈ obs.head?, timeLE s.last_plate_time (some q.2) = true) →
    List.Chain'
      (fun s1 s2 => timeLE s1.last_plate_time s2.last_plate_time = true)
      (s :: dedupStates s obs) := by
  induction obs with
  | nil =>
    intro s _ _
    simp [dedupStates]
  | cons a rest ih =>
    intro s hchain hhead
    obtain ⟨p, t⟩ := a
    have hnow : timeLE s.last_plate_time (some t) = true := hhead (p, t) rfl
    have hstep := shouldSendPlate_time_step s p t hnow
    rw [dedupStates, List.chain'_cons]
    refine ⟨hstep.1, ih _ hchain.tail ?_⟩
    intro q hq
    exact timeLE_trans_someR hstep.2 (hchain.rel_head? hq)

/-! ### Claim theorems -/

/-- C1: the claim quantifies over all times `t1 < t2` with `t2 - t1 < 5`
and asserts the decisions `accept, reject`; at `t1 = 0` the stored
timestamp `0` is falsy in Python, the cool-down check is skipped, and the
code accepts the duplicate — contradicting the code's own comment "Same
plate - only send if 5+ seconds passed".  This theorem evaluates the code
at the failing input: plate "A" at times 0 and 1 yields accept, accept. -/
theorem C1_duplicate_at_epoch_accepted :
    decisions [("A", 0), ("A", 1)] = [true, true] := by
  norm_num [decisions, runDedup, shouldSendPlate, initState]

/-- C2: the spec scenario [("ABC123", 0), ("ABC123", 2), ("ABC123", 6),
("XYZ999", 6.1)] is claimed to yield accept, reject, accept, accept; the
code yields accept, accept, reject, accept, because at t = 2 the stored
timestamp 0 is falsy (cool-down skipped, duplicate accepted) and at t = 6
the stored timestamp is then 2 with 6 - 2 < 5 (rejected).  This theorem
evaluates the code on the scenario. -/
theorem C2_scenario_actual_decisions :
    decisions
        [("ABC123", 0), ("ABC123", 2), ("ABC123", 6), ("XYZ999", 6.1)] =
      [true, true, false, true] := by
  norm_num [decisions, runDedup, shouldSendPlate, initState]
  decide

/-- C3: a rejecting call leaves the stored plate and timestamp exactly as
they were; an accepting call overwrites both with the input plate and
time — in every case, including a different incoming plate. -/
theorem C3_state_update_iff_accept (s : ANPRState) (p : String) (t : ℚ) :
    (shouldSendPlate s p t).2 =
      if (shouldSendPlate s p t).1 = true then
        { last_plate := some p, last_plate_time := some t }
      else s := by
  rcases shouldSendPlate_cases s p t with h | h <;> rw [h] <;> simp

/-- C4: from a fresh state, two distinct plates are both accepted,
whatever the elapsed time (the second call compares plates first and the
comparison fails). -/
theorem C4_distinct_plates_both_accepted (p1 p2 : String) (t1 t2 : ℚ)
    (hp : p1 ≠ p2) (ht : t1 ≤ t2) :
    decisions [(p1, t1), (p2, t2)] = [true, true] := by
  have h2 : shouldSendPlate
      { last_plate := some p1, last_plate_time := some t1 } p2 t2 =
      (true, { last_plate := some p2, last_plate_time := some t2 }) :=
    shouldSendPlate_diff _ _ _ (by simp [hp])
  simp [decisions, runDedup, shouldSendPlate_init, h2]

/-- C4 witness: plates "A" and "B" at times 0 and 1. -/
theorem C4_witness :
    "A" ≠ "B" ∧ (0 : ℚ) ≤ 1 ∧
      decisions [("A", 0), ("B", 1)] = [true, true] :=
  ⟨by decide, by norm_num,
   C4_distinct_plates_both_accepted "A" "B" 0 1 (by decide) (by norm_num)⟩

/-- C5: from a fresh state, the same plate resubmitted after the 5-unit
cool-down has elapsed is accepted both times. -/
theorem C5_cooldown_elapsed_both_accepted (p : String) (t1 t2 : ℚ)
    (h1 : t1 < t2) (h2 : 5 ≤ t2 - t1) :
    decisions [(p, t1), (p, t2)] = [true, true] := by
  have hc : shouldSendPlate
      { last_plate := some p, last_plate_time := some t1 } p t2 =
      (true, { last_plate := some p, last_plate_time := some t2 }) :=
    shouldSendPlate_cooled p t1 t2 (by linarith)
  simp [decisions, runDedup, shouldSendPlate_init, hc]

/-- C5 witness: plate "A" at times 1 and 6. -/
theorem C5_witness :
    (1 : ℚ) < 6 ∧ (5 : ℚ) ≤ 6 - 1 ∧
      decisions [("A", 1), ("A", 6)] = [true, true] :=
  ⟨by norm_num, by norm_num,
   C5_cooldown_elapsed_both_accepted "A" 1 6 (by norm_num) (by norm_num)⟩

/-- C10: whenever the stored plate equals the incoming plate but the
stored timestamp is falsy (`None` or `0`), the call accepts and
overwrites the state — the cool-down comparison is skipped entirely,
whatever `now` is. -/
theorem C10_falsy_timestamp_accepts (s : ANPRState) (p : String) (now : ℚ)
    (hp : s.last_plate = some p)
    (ht : s.last_plate_time = none ∨ s.last_plate_time = some 0) :
    shouldSendPlate s p now =
      (true, { last_plate := some p, last_plate_time := some now }) := by
  rcases ht with h | h <;> simp [shouldSendPlate, hp, h]

/-- C10 witness: stored plate "A" with stored timestamp 0, incoming "A"
at time 1 (well inside the cool-down window). -/
theorem C10_witness :
    ({ last_plate := some "A", last_plate_time := some 0 } :
        ANPRState).last_plate = some "A" ∧
    (({ last_plate := some "A", last_plate_time := some 0 } :
        ANPRState).last_plate_time = none ∨
     ({ last_plate := some "A", last_plate_time := some 0 } :
        ANPRState).last_plate_time = some 0) ∧
    shouldSendPlate
        { last_plate := some "A", last_plate_time := some 0 } "A" 1 =
      (true, { last_plate := some "A", last_plate_time := some 1 }) :=
  ⟨rfl, Or.inr rfl,
   C10_falsy_timestamp_accepts
     { last_plate := some "A", last_plate_time := some 0 } "A" 1 rfl
     (Or.inr rfl)⟩

/-- C6: across any observation sequence whose times are non-decreasing
(frames arrive in capture order), the stored timestamp after each call of
a freshly constructed deduplicator is at or above its value after the
previous call. -/
theorem C6_last_seen_at_monotone (obs : List (String × ℚ))
    (h : List.Chain' (fun a b => a.2 ≤ b.2) obs) :
    List.Chain'
      (fun s1 s2 => timeLE s1.last_plate_time s2.last_plate_time = true)
      (initState :: dedupStates initState obs) :=
  dedupStates_chain obs initState h (fun _ _ => rfl)

/-- C6 witness: a concrete in-order observation sequence mixing a reject,
a repeat and a distinct plate. -/
theorem C6_witness :
    List.Chain' (fun (a b : String × ℚ) => a.2 ≤ b.2)
        [("ABC123", 1), ("ABC123", 2), ("XYZ999", 2)] ∧
    List.Chain'
        (fun s1 s2 => timeLE s1.last_plate_time s2.last_plate_time = true)
        (initState ::
          dedupStates initState
            [("ABC123", 1), ("ABC123", 2), ("XYZ999", 2)]) :=
  ⟨by norm_num [List.chain'_cons, List.chain'_singleton],
   C6_last_seen_at_monotone _
     (by norm_num [List.chain'_cons, List.chain'_singleton])⟩

/-- C7: for one recognizer candidate, whether a payload is built (and
hence submitted) and what the successor state is depend only on the plate
and the clock, never on the confidence value; `CONFIDENCE_THRESHOLD` is
never consulted. -/
theorem C7_confidence_noninterference (s : ANPRState) (c1 c2 : Candidate)
    (now : ℚ) (h : c1.plate = c2.plate) :
    (processCandidate s c1 now).1.isSome =
        (processCandidate s c2 now).1.isSome ∧
    (processCandidate s c1 now).2 = (processCandidate s c2 now).2 := by
  obtain ⟨p1, conf1⟩ := c1
  obtain ⟨p2, conf2⟩ := c2
  have h2 : p1 = p2 := h
  subst h2
  cases hb : (shouldSendPlate s p1 now).1 <;> simp [processCandidate, hb]

/-- C7 witness: the same plate with confidences 99 and 1 produces the
same submit decision and the same successor state. -/
theorem C7_witness :
    (⟨"KAA111", 99⟩ : Candidate).plate = (⟨"KAA111", 1⟩ : Candidate).plate ∧
    ((processCandidate initState ⟨"KAA111", 99⟩ 7).1.isSome =
        (processCandidate initState ⟨"KAA111", 1⟩ 7).1.isSome ∧
      (processCandidate initState ⟨"KAA111", 99⟩ 7).2 =
        (processCandidate initState ⟨"KAA111", 1⟩ 7).2) :=
  ⟨rfl,
   C7_confidence_noninterference initState ⟨"KAA111", 99⟩ ⟨"KAA111", 1⟩ 7 rfl⟩

/-- C8 counterexample: a 201 response lies in the 2xx range, yet
`send_to_erm` treats it as failure — `response.status_code == 200` is the
only success test in the code. -/
theorem C8_counterexample_201 :
    is2xx 201 = true ∧
      treatedAsSuccess (send_to_erm (HttpOutcome.response 201 [])) = false := by
  decide

/-- C8 (amended): a submission outcome is treated as success (alerts
surfaced only as a log count) exactly when it is a response with HTTP
status 200; every other status and both exception kinds produce a normal
return that is not a success — nothing is retried or re-raised, which is
visible in `send_to_erm` being total over `HttpOutcome`. -/
theorem C8_success_iff_status_200 (r : HttpOutcome) :
    treatedAsSuccess (send_to_erm r) = true ↔
      ∃ alerts, r = HttpOutcome.response 200 alerts := by
  cases r with
  | response status alerts =>
    by_cases h : status = 200 <;> simp [send_to_erm, treatedAsSuccess, h]
  | requestException m => simp [send_to_erm, treatedAsSuccess]
  | otherException m => simp [send_to_erm, treatedAsSuccess]

/-- C9: when the RPC invocation raises, the script's remaining effects are
exactly one print of the exception followed by an exit with a non-zero
status — no further operation happens after the failed invocation. -/
theorem C9_rpc_failure_aborts (key e : String) :
    ∃ n, n ≠ 0 ∧
      fix_rls_script (some key) (Except.error e) =
        [Eff.printLine "Applying RLS fix policies...",
         Eff.rpcExec fix_rls_sql,
         Eff.printLine ("❌ Error: " ++ e),
         Eff.exitWith n] :=
  ⟨1, Nat.one_ne_zero, rfl⟩

end ERM
